import Mathlib

set_option maxRecDepth 40000

/-!
Shallow embedding of the newsletter-app backend (src/server.js).

The database is modelled as lists of rows for the two tables created by
`initializeDatabase` (clients, newsletters).  Each HTTP handler becomes a pure
function from the request data and the database state to a response value, the
new database state and, for the send handler, the list of `sendMail` calls it
performed.  External collaborators are modelled by their contracts: the
PostgreSQL engine executes the parameterized statements literally (the
`UNIQUE`/`NOT NULL` constraints come from the schema in the source), and the
nodemailer transport is a per-call success oracle.  JavaScript semantics that
the handlers rely on are modelled explicitly: reading `clients[i]` out of
bounds yields `undefined`, and the subsequent `client.email` access throws a
TypeError that the handler's outer catch turns into a 500 response.
-/

namespace NewsletterApp

/-- A row of the `clients` table (schema from `initializeDatabase`):
`id SERIAL, email TEXT UNIQUE NOT NULL, name TEXT, company TEXT,
subscribed BOOLEAN DEFAULT TRUE, created_at TIMESTAMP DEFAULT now`. -/
structure Client where
  id : Nat
  email : String
  name : Option String
  company : Option String
  subscribed : Bool
  created_at : Nat
deriving Repr, DecidableEq

/-- A row of the `newsletters` table: `id SERIAL, subject TEXT NOT NULL,
content TEXT NOT NULL, sent_count INTEGER DEFAULT 0, created_at TIMESTAMP`. -/
structure Newsletter where
  id : Nat
  subject : String
  content : String
  sent_count : Nat
  created_at : Nat
deriving Repr, DecidableEq

/-- The database state: the two tables plus the `SERIAL` sequences backing the
`id` columns. -/
structure Db where
  clients : List Client
  newsletters : List Newsletter
  nextClientId : Nat
  nextNewsletterId : Nat
deriving Repr, DecidableEq

/-- Outcome of `POST /api/clients`: 200 with the created row, 409 on duplicate
email, or 500 with the raw database error message. -/
inductive CreateClientRes where
  | ok (client : Client)
  | conflict
  | serverError (msg : String)
deriving Repr, DecidableEq

/-- The raw PostgreSQL message for inserting NULL into `email TEXT NOT NULL`
(pg converts an `undefined` parameter to NULL). -/
def notNullMsg : String :=
  "null value in column \"email\" of relation \"clients\" violates not-null constraint"

/-- `POST /api/clients`:
`INSERT INTO clients (email, name, company) VALUES ($1,$2,$3)
 ON CONFLICT (email) DO NOTHING RETURNING *`.
A missing `email` field in the body is `undefined`, sent as NULL, and the NOT
NULL constraint rejects the insert; the handler has no validation and its
catch returns 500 with the raw message.  On conflict the row is not inserted
(the `SERIAL` sequence is still consumed, as the default is evaluated before
conflict resolution) and the empty `RETURNING` set is mapped to 409. -/
def postClients (db : Db) (email : Option String) (name company : Option String)
    (now : Nat) : CreateClientRes × Db :=
  match email with
  | none => (.serverError notNullMsg, db)
  | some e =>
    if db.clients.any (fun c => c.email == e) then
      (.conflict, { db with nextClientId := db.nextClientId + 1 })
    else
      let row : Client :=
        { id := db.nextClientId, email := e, name := name, company := company
          subscribed := true, created_at := now }
      (.ok row,
       { db with clients := db.clients ++ [row],
                 nextClientId := db.nextClientId + 1 })

/-- Per-row effect of `UPDATE clients SET subscribed = false WHERE email = $1`:
a row matching the predicate gets `subscribed = false`, any other row is left
alone. -/
def unsubFn (email : String) (c : Client) : Client :=
  if c.email == email then { c with subscribed := false } else c

/-- `POST /api/unsubscribe`:
`UPDATE clients SET subscribed = false WHERE email = $1`, then always a 200
`{message: 'Pretplata uspješno otkazana'}` (the affected-row count is not
inspected). -/
def postUnsubscribe (db : Db) (email : String) : String × Db :=
  ("Pretplata uspješno otkazana", { db with clients := db.clients.map (unsubFn email) })

/-- JavaScript truthiness of an environment variable: `undefined` and the empty
string are falsy. -/
def envTruthy : Option String → Bool
  | none => false
  | some s => !(s == "")

/-- Environment and external-world inputs of the send handler:
the mail credentials (`EMAIL_USER`, `EMAIL_PASS`), a per-call success oracle for
`transporter.sendMail` (indexed by loop position; `false` means the call
rejects), and optional injected `pool.query` rejections for the two reads,
carrying the raw error message the handler's catch would surface. -/
structure SendEnv where
  emailUser : Option String
  emailPass : Option String
  deliver : Nat → Bool
  newsletterFetchErr : Option String
  clientsFetchErr : Option String

/-- One `transporter.sendMail` invocation (`fromAddr` is the `from:` field,
set to `process.env.EMAIL_USER`). -/
structure Mail where
  fromAddr : Option String
  toAddr : String
  subject : String
  html : String
deriving Repr, DecidableEq

/-- `content.replace(/\n/g, '<br>')`: the global single-character regex
replacement, character by character. -/
def replaceNl : List Char → List Char
  | [] => []
  | c :: cs => (if c = '\n' then ['<', 'b', 'r', '>'] else [c]) ++ replaceNl cs

/-- String form of `replaceNl`. -/
def nlToBr (s : String) : String := String.mk (replaceNl s.data)

/-- The part of the handler's HTML template literal (src/server.js:169-179)
before the interpolated content: everything up to and including the opening
`<div>` of the content block, with `newsletter.subject` interpolated. -/
def htmlHead (subject : String) : String :=
  "\n              <div style=\"font-family: Arial, sans-serif; max-width: 600px; margin: 0 auto;\">\n                <h2>"
    ++ subject
    ++ "</h2>\n                <div>"

/-- The part of the template literal after the interpolated content, with
`req.headers.origin` and `client.email` interpolated into the unsubscribe
link. -/
def htmlTail (origin email : String) : String :=
  "</div>\n                <hr>\n                <p style=\"color: #666; font-size: 12px;\">\n                  Pošaljeno putem Newsletter App<br>\n                  <a href=\""
    ++ origin ++ "/unsubscribe?email=" ++ email
    ++ "\">Otkaži pretplatu</a>\n                </p>\n              </div>\n            "

/-- The HTML body of the send handler: the template literal with
`newsletter.content.replace(/\n/g, '<br>')` interpolated between head and
tail. -/
def buildHtml (subject content origin email : String) : String :=
  htmlHead subject ++ nlToBr content ++ htmlTail origin email

/-- The `sendMail` argument object built for one recipient. -/
def mkMail (env : SendEnv) (nl : Newsletter) (origin : String) (c : Client) : Mail :=
  { fromAddr := env.emailUser, toAddr := c.email, subject := nl.subject
    html := buildHtml nl.subject nl.content origin c.email }

/-- Outcome of `POST /api/newsletters/:id/send`: 200 with
`{message, sent, total, testMode}`, 404, or 500 with the error message. -/
inductive SendRes where
  | ok (message : String) (sent : Nat) (total : Nat) (testMode : Bool)
  | notFound
  | serverError (msg : String)
deriving Repr, DecidableEq

/-- The message of the TypeError thrown by `client.email` when
`clients[i]` is `undefined` (loop index past the end of the row set). -/
def typeErrorMsg : String := "Cannot read properties of undefined (reading 'email')"

/-- The send loop `for (let i = 0; i < maxEmails; i++)`, with `fuel` the number
of remaining iterations and `i` the current index.  Each iteration reads
`clients[i]`; if that is `undefined` the `client.email` accesses (in the
success log, and again in the catch) throw, escaping the per-item try/catch —
modelled as `none`.  Otherwise: in test mode no `sendMail` call is made and
`sentCount++` runs unconditionally; in live mode `sendMail` is invoked and
`sentCount++` runs only when it did not reject (a rejection is swallowed by the
per-item catch).  Returns the final `sentCount` and the `sendMail` calls made,
in order. -/
def sendLoop (testMode : Bool) (env : SendEnv) (nl : Newsletter) (origin : String)
    (clients : List Client) : Nat → Nat → Option (Nat × List Mail)
  | _, 0 => some (0, [])
  | i, fuel + 1 =>
    match clients[i]? with
    | none => none
    | some c =>
      if testMode then
        match sendLoop testMode env nl origin clients (i + 1) fuel with
        | none => none
        | some (s, ms) => some (s + 1, ms)
      else
        let m := mkMail env nl origin c
        if env.deliver i then
          match sendLoop testMode env nl origin clients (i + 1) fuel with
          | none => none
          | some (s, ms) => some (s + 1, m :: ms)
        else
          match sendLoop testMode env nl origin clients (i + 1) fuel with
          | none => none
          | some (s, ms) => some (s, m :: ms)

/-- The handler's `clients` local:
`SELECT * FROM clients WHERE subscribed = true`. -/
def subscribedClients (db : Db) : List Client :=
  db.clients.filter (fun c => c.subscribed)

/-- The handler's `testMode` local: `const testMode = !process.env.EMAIL_USER`. -/
def testModeOf (env : SendEnv) : Bool :=
  !(envTruthy env.emailUser)

/-- The handler's `maxEmails` local:
`const maxEmails = testMode ? 3 : clients.length`. -/
def maxEmailsOf (env : SendEnv) (clients : List Client) : Nat :=
  if testModeOf env then 3 else clients.length

/-- `UPDATE newsletters SET sent_count = $1 WHERE id = $2`. -/
def updateSentCount (db : Db) (id sentCount : Nat) : Db :=
  { db with
      newsletters := db.newsletters.map
        (fun n => if n.id == id then { n with sent_count := sentCount } else n) }

/-- The handler's `message` local: test-mode versus live wording. -/
def sendMessage (testMode : Bool) (sentCount : Nat) : String :=
  if testMode then
    "📧 TEST MODE: Newsletter spreman za slanje na " ++ toString sentCount
      ++ " emailova (email nije konfiguriran)"
  else
    "✅ Newsletter poslan na " ++ toString sentCount ++ " email adresa"

/-- `POST /api/newsletters/:id/send` (src/server.js:138-206).
Fetch the newsletter (404 when absent), fetch the subscribed clients, compute
`testMode = !process.env.EMAIL_USER` and `maxEmails = testMode ? 3 :
clients.length`, run the loop, then
`UPDATE newsletters SET sent_count = $1 WHERE id = $2` and answer 200 with
`{message, sent: sentCount, total: clients.length, testMode}`.  Any exception
(an injected query rejection, or the TypeError from an out-of-range
`clients[i]`) reaches the outer catch and answers 500 with the error message,
leaving the database untouched.  The third component lists the `sendMail`
calls performed. -/
def postSend (env : SendEnv) (origin : String) (db : Db) (id : Nat) :
    SendRes × Db × List Mail :=
  match env.newsletterFetchErr with
  | some m => (.serverError m, db, [])
  | none =>
    match db.newsletters.find? (fun n => n.id == id) with
    | none => (.notFound, db, [])
    | some newsletter =>
      match env.clientsFetchErr with
      | some m => (.serverError m, db, [])
      | none =>
        match sendLoop (testModeOf env) env newsletter origin (subscribedClients db) 0
            (maxEmailsOf env (subscribedClients db)) with
        | none => (.serverError typeErrorMsg, db, [])
        | some (sentCount, mails) =>
          (.ok (sendMessage (testModeOf env) sentCount) sentCount
            (subscribedClients db).length (testModeOf env),
           updateSentCount db id sentCount, mails)

/-- Number of rows of `cs` whose `email` equals `e`. -/
def countEmail (cs : List Client) (e : String) : Nat :=
  (cs.filter (fun c => c.email == e)).length

/-- The schema invariant `email TEXT UNIQUE`: pairwise distinct emails. -/
def emailsUnique (cs : List Client) : Prop :=
  cs.Pairwise (fun a b => a.email ≠ b.email)

/-- Successes of the delivery oracle among `fuel` consecutive indices starting
at `i`. -/
def countSucc (deliver : Nat → Bool) : Nat → Nat → Nat
  | _, 0 => 0
  | i, fuel + 1 => (if deliver i then 1 else 0) + countSucc deliver (i + 1) fuel

/-- A sequence of `POST /api/clients` attempts, all with email `e` and the
given per-attempt `(name, company, created_at)` data. -/
def createMany (db : Db) (e : String) : List (Option String × Option String × Nat) → Db
  | [] => db
  | (n, co, t) :: rest => createMany (postClients db (some e) n co t).2 e rest

/-! Concrete fixtures used to instantiate the theorems. -/

/-- A subscribed client row with the given id and email. -/
def wClient (i : Nat) (e : String) : Client :=
  { id := i, email := e, name := none, company := none, subscribed := true, created_at := i }

/-- A newsletter whose content holds an embedded newline. -/
def wNewsletter : Newsletter :=
  { id := 1, subject := "Ponuda", content := "prvi red\ndrugi red", sent_count := 0
    created_at := 0 }

/-- Database with two subscribed clients and one newsletter. -/
def wDb2 : Db :=
  { clients := [wClient 1 "ana@example.com", wClient 2 "bo@example.com"]
    newsletters := [wNewsletter], nextClientId := 3, nextNewsletterId := 2 }

/-- Database with five subscribed clients and one newsletter. -/
def wDb5 : Db :=
  { clients := [wClient 1 "a@x.hr", wClient 2 "b@x.hr", wClient 3 "c@x.hr",
                wClient 4 "d@x.hr", wClient 5 "e@x.hr"]
    newsletters := [wNewsletter], nextClientId := 6, nextNewsletterId := 2 }

/-- No `EMAIL_USER` configured: the send handler runs in test mode. -/
def wTestEnv : SendEnv :=
  { emailUser := none, emailPass := none, deliver := fun _ => true
    newsletterFetchErr := none, clientsFetchErr := none }

/-- Credentials configured, every delivery succeeds. -/
def wLiveEnv : SendEnv :=
  { emailUser := some "sender@gmail.com", emailPass := some "tajna"
    deliver := fun _ => true, newsletterFetchErr := none, clientsFetchErr := none }

/-- Credentials configured, the delivery at loop index 0 rejects. -/
def wLiveEnvFail : SendEnv :=
  { emailUser := some "sender@gmail.com", emailPass := some "tajna"
    deliver := fun i => !(i == 0), newsletterFetchErr := none, clientsFetchErr := none }

/-- The newsletter fetch rejects (database fault). -/
def wDbFailEnv : SendEnv :=
  { emailUser := none, emailPass := none, deliver := fun _ => true
    newsletterFetchErr := some "connection terminated", clientsFetchErr := none }

/-! Helper lemmas about the embedded operations. -/

theorem countEmail_eq_zero_iff {cs : List Client} {e : String} :
    countEmail cs e = 0 ↔ ∀ c ∈ cs, c.email ≠ e := by
  simp [countEmail, List.length_eq_zero, List.filter_eq_nil_iff]

theorem any_email_false_iff {cs : List Client} {e : String} :
    cs.any (fun c => c.email == e) = false ↔ countEmail cs e = 0 := by
  rw [countEmail_eq_zero_iff]
  simp [List.any_eq_false]

theorem postClients_new {db : Db} {e : String} {n co : Option String} {t : Nat}
    (h : countEmail db.clients e = 0) :
    postClients db (some e) n co t =
      (CreateClientRes.ok
        { id := db.nextClientId, email := e, name := n, company := co
          subscribed := true, created_at := t },
       { db with
           clients := db.clients ++
             [{ id := db.nextClientId, email := e, name := n, company := co
                subscribed := true, created_at := t }]
           nextClientId := db.nextClientId + 1 }) := by
  have ha : db.clients.any (fun c => c.email == e) = false := any_email_false_iff.mpr h
  simp [postClients, ha]

theorem postClients_dup (db : Db) (e : String) (n co : Option String) (t : Nat)
    (h : countEmail db.clients e ≠ 0) :
    postClients db (some e) n co t =
      (CreateClientRes.conflict, { db with nextClientId := db.nextClientId + 1 }) := by
  have ha : db.clients.any (fun c => c.email == e) = true := by
    cases hb : db.clients.any (fun c => c.email == e) with
    | false => exact absurd (any_email_false_iff.mp hb) h
    | true => rfl
  simp [postClients, ha]

theorem countEmail_append {cs ds : List Client} {e : String} :
    countEmail (cs ++ ds) e = countEmail cs e + countEmail ds e := by
  simp [countEmail, List.filter_append]

theorem createMany_clients_of_one {e : String} :
    ∀ (ps : List (Option String × Option String × Nat)) (db : Db),
      countEmail db.clients e = 1 → (createMany db e ps).clients = db.clients
  | [], _, _ => rfl
  | (n, co, t) :: rest, db, h => by
    have hd := postClients_dup db e n co t (by omega)
    show (createMany (postClients db (some e) n co t).2 e rest).clients = db.clients
    rw [hd]
    exact createMany_clients_of_one rest _ h

theorem sendLoop_test (env : SendEnv) (nl : Newsletter) (origin : String)
    (clients : List Client) :
    ∀ (fuel i : Nat), i + fuel ≤ clients.length →
      sendLoop true env nl origin clients i fuel = some (fuel, [])
  | 0, _, _ => rfl
  | fuel + 1, i, h => by
    have hi : i < clients.length := by omega
    rw [sendLoop, List.getElem?_eq_getElem hi]
    simp [sendLoop_test env nl origin clients fuel (i + 1) (by omega)]

theorem sendLoop_live (env : SendEnv) (nl : Newsletter) (origin : String)
    (clients : List Client) :
    ∀ (fuel i : Nat), i + fuel ≤ clients.length →
      sendLoop false env nl origin clients i fuel =
        some (countSucc env.deliver i fuel,
              ((clients.drop i).take fuel).map (mkMail env nl origin))
  | 0, i, _ => by simp [sendLoop, countSucc]
  | fuel + 1, i, h => by
    have hi : i < clients.length := by omega
    have ih := sendLoop_live env nl origin clients fuel (i + 1) (by omega)
    have hdrop : clients.drop i = clients[i] :: clients.drop (i + 1) :=
      List.drop_eq_getElem_cons hi
    have hdrop2 : (clients.map (mkMail env nl origin)).drop i
        = mkMail env nl origin clients[i] :: (clients.map (mkMail env nl origin)).drop (i + 1) := by
      rw [List.drop_eq_getElem_cons (by simpa using hi)]
      simp
    rw [sendLoop, List.getElem?_eq_getElem hi, ih, hdrop]
    by_cases hd : env.deliver i
    · simp [hd, countSucc]
      refine ⟨by omega, ?_⟩
      rw [hdrop2, List.take_succ_cons]
    · simp [hd, countSucc]
      rw [hdrop2, List.take_succ_cons]

theorem sendLoop_mails (tm : Bool) (env : SendEnv) (nl : Newsletter) (origin : String)
    (clients : List Client) :
    ∀ (fuel i s : Nat) (ms : List Mail),
      sendLoop tm env nl origin clients i fuel = some (s, ms) →
      ∀ m ∈ ms, ∃ c, m = mkMail env nl origin c
  | 0, i, s, ms, h => by
    simp only [sendLoop, Option.some.injEq, Prod.mk.injEq] at h
    intro m hm
    rw [← h.2] at hm
    exact absurd hm (List.not_mem_nil m)
  | fuel + 1, i, s, ms, h => by
    rw [sendLoop] at h
    cases hc : clients[i]? with
    | none => rw [hc] at h; exact absurd h (by simp)
    | some c =>
      rw [hc] at h
      cases hr : sendLoop tm env nl origin clients (i + 1) fuel with
      | none =>
        rw [hr] at h
        cases tm with
        | true => simp at h
        | false =>
          by_cases hd : env.deliver i
          · simp [hd] at h
          · simp [hd] at h
      | some p =>
        obtain ⟨s', ms'⟩ := p
        rw [hr] at h
        have ihrec := sendLoop_mails tm env nl origin clients fuel (i + 1) s' ms' hr
        cases tm with
        | true =>
          simp only [if_true, Option.some.injEq, Prod.mk.injEq] at h
          intro m hm
          rw [← h.2] at hm
          exact ihrec m hm
        | false =>
          by_cases hd : env.deliver i
          · simp only [hd, Bool.false_eq_true, if_false, if_true,
              Option.some.injEq, Prod.mk.injEq] at h
            intro m hm
            rw [← h.2] at hm
            cases hm with
            | head => exact ⟨c, rfl⟩
            | tail _ hm' => exact ihrec m hm'
          · simp only [Bool.not_eq_true] at hd
            simp only [hd, Bool.false_eq_true, if_false,
              Option.some.injEq, Prod.mk.injEq] at h
            intro m hm
            rw [← h.2] at hm
            cases hm with
            | head => exact ⟨c, rfl⟩
            | tail _ hm' => exact ihrec m hm'

theorem postSend_clients_const (env : SendEnv) (origin : String) (db : Db) (id : Nat) :
    (postSend env origin db id).2.1.clients = db.clients
  ∧ (postSend env origin db id).2.1.nextClientId = db.nextClientId
  ∧ (postSend env origin db id).2.1.nextNewsletterId = db.nextNewsletterId := by
  unfold postSend
  repeat' split
  all_goals exact ⟨rfl, rfl, rfl⟩

theorem postSend_ok_shape {env : SendEnv} {origin : String} {db : Db} {id : Nat}
    {m : String} {s t : Nat} {tm : Bool} {db' : Db} {ms : List Mail}
    (h : postSend env origin db id = (SendRes.ok m s t tm, db', ms)) :
    db' = updateSentCount db id s
      ∧ tm = testModeOf env
      ∧ t = (subscribedClients db).length := by
  unfold postSend at h
  split at h
  · exact absurd h (by simp)
  · split at h
    · exact absurd h (by simp)
    · split at h
      · exact absurd h (by simp)
      · split at h
        · exact absurd h (by simp)
        · simp only [Prod.mk.injEq, SendRes.ok.injEq] at h
          obtain ⟨⟨_, hs, ht, htm⟩, hdb, _⟩ := h
          subst hs
          exact ⟨hdb.symm, htm.symm, ht.symm⟩

theorem postSend_mails_shape {env : SendEnv} {origin : String} {db : Db} {id : Nat}
    {nlw : Newsletter} {res : SendRes} {db' : Db} {ms : List Mail}
    (hFind : db.newsletters.find? (fun n => n.id == id) = some nlw)
    (h : postSend env origin db id = (res, db', ms)) :
    ∀ m ∈ ms, ∃ c, m = mkMail env nlw origin c := by
  intro m hm
  unfold postSend at h
  split at h
  · simp only [Prod.mk.injEq] at h
    rw [← h.2.2] at hm
    exact absurd hm (List.not_mem_nil m)
  · split at h
    · simp only [Prod.mk.injEq] at h
      rw [← h.2.2] at hm
      exact absurd hm (List.not_mem_nil m)
    · rename_i nlw' heq
      rw [hFind] at heq
      injection heq with heq'
      subst heq'
      split at h
      · simp only [Prod.mk.injEq] at h
        rw [← h.2.2] at hm
        exact absurd hm (List.not_mem_nil m)
      · split at h
        · simp only [Prod.mk.injEq] at h
          rw [← h.2.2] at hm
          exact absurd hm (List.not_mem_nil m)
        · rename_i sc mails hL
          simp only [Prod.mk.injEq] at h
          rw [← h.2.2] at hm
          exact sendLoop_mails _ env nlw origin _ _ _ _ _ hL m hm

theorem sendLoop_true_mails (env : SendEnv) (nl : Newsletter) (origin : String)
    (clients : List Client) :
    ∀ (fuel i s : Nat) (ms : List Mail),
      sendLoop true env nl origin clients i fuel = some (s, ms) → ms = []
  | 0, i, s, ms, h => by
    simp only [sendLoop, Option.some.injEq, Prod.mk.injEq] at h
    exact h.2.symm
  | fuel + 1, i, s, ms, h => by
    rw [sendLoop] at h
    cases hc : clients[i]? with
    | none => rw [hc] at h; exact absurd h (by simp)
    | some c =>
      rw [hc] at h
      cases hr : sendLoop true env nl origin clients (i + 1) fuel with
      | none => rw [hr] at h; simp at h
      | some p =>
        obtain ⟨s', ms'⟩ := p
        rw [hr] at h
        simp at h
        obtain ⟨hs, hms⟩ := h
        subst hms
        exact sendLoop_true_mails env nl origin clients fuel (i + 1) s' _ hr

theorem replaceNl_eq_join (cs : List Char) :
    replaceNl cs
      = (cs.map (fun c => if c = '\n' then ['<', 'b', 'r', '>'] else [c])).flatten := by
  induction cs with
  | nil => rfl
  | cons c cs ih => simp [replaceNl, ih]

theorem replaceNl_infix (subject content origin email : String) :
    ∃ pre post : List Char,
      pre ++ replaceNl content.data ++ post
        = (buildHtml subject content origin email).data :=
  ⟨(htmlHead subject).data, (htmlTail origin email).data, rfl⟩

theorem map_self_of_fixed {f : Client → Client} :
    ∀ cs : List Client, (∀ c ∈ cs, f c = c) → cs.map f = cs
  | [], _ => rfl
  | c :: cs, h => by
    rw [List.map_cons, h c (by simp),
      map_self_of_fixed cs (fun a ha => h a (by simp [ha]))]

theorem unsubFn_email (email : String) (c : Client) : (unsubFn email c).email = c.email := by
  unfold unsubFn
  split <;> rfl

theorem unsubFn_idem (email : String) (c : Client) :
    unsubFn email (unsubFn email c) = unsubFn email c := by
  unfold unsubFn
  by_cases hc : c.email == email
  · simp [hc]
  · simp [hc]

theorem updateSentCount_sent (db : Db) (id s : Nat) :
    ∀ nl ∈ (updateSentCount db id s).newsletters, nl.id = id → nl.sent_count = s := by
  intro nl hmem hid
  obtain ⟨n, hn, rfl⟩ := List.mem_map.mp hmem
  by_cases hni : n.id == id
  · rw [if_pos hni]
  · rw [if_neg hni] at hid ⊢
    exact absurd (by simp [hid]) hni

/-! The claims. -/

/-- C1: refuted as universally stated; the code is the slip.  In test mode the
handler iterates `maxEmails = 3` recipients without capping at the subscriber
count, so with only 2 subscribed clients the loop reads `clients[2]`, which is
`undefined`; the `client.email` access throws a TypeError that the outer catch
turns into a 500 response, and `sent_count` is never written — instead of the
claimed `sent = 2, total = 2, testMode = true` with `sent_count = 2`.  With 5
subscribed clients the claimed behaviour does hold: `sent = 3, total = 5,
testMode = true`, `sent_count = 3`, and no delivery call is performed. -/
theorem c1_testmode_small_subscriber_crash :
    postSend wTestEnv "https://app.example" wDb2 1
        = (SendRes.serverError typeErrorMsg, wDb2, [])
  ∧ postSend wTestEnv "https://app.example" wDb5 1
        = (SendRes.ok
            "📧 TEST MODE: Newsletter spreman za slanje na 3 emailova (email nije konfiguriran)"
            3 5 true,
           { wDb5 with newsletters := [{ wNewsletter with sent_count := 3 }] }, []) :=
  ⟨by decide, by decide⟩

/-- C5: sending to a newsletter id that matches no row answers 404 and leaves
the database entirely unchanged, with no delivery attempted; and a failure of
either read (newsletter fetch, subscriber fetch) aborts with a 500 before any
send attempt and before any persistence write. -/
theorem c5_send_missing_newsletter_no_change (env : SendEnv) (origin : String) (db : Db)
    (id : Nat) :
    ((env.newsletterFetchErr = none ∧ db.newsletters.find? (fun n => n.id == id) = none) →
        postSend env origin db id = (SendRes.notFound, db, []))
  ∧ (∀ m, env.newsletterFetchErr = some m →
        postSend env origin db id = (SendRes.serverError m, db, []))
  ∧ (∀ m nlw, env.newsletterFetchErr = none →
        db.newsletters.find? (fun n => n.id == id) = some nlw →
        env.clientsFetchErr = some m →
        postSend env origin db id = (SendRes.serverError m, db, [])) := by
  refine ⟨?_, ?_, ?_⟩
  · rintro ⟨h1, h2⟩
    simp [postSend, h1, h2]
  · intro m hm
    simp [postSend, hm]
  · intro m nlw h1 hF h2
    simp [postSend, h1, hF, h2]

/-- Closed instance of C5: newsletter id 99 does not exist in `wDb2`, so the
send answers 404 with the database unchanged and no mail sent. -/
theorem c5_send_missing_newsletter_no_change_witness :
    (wTestEnv.newsletterFetchErr = none
      ∧ wDb2.newsletters.find? (fun n => n.id == 99) = none)
  ∧ postSend wTestEnv "https://app.example" wDb2 99 = (SendRes.notFound, wDb2, []) :=
  ⟨⟨rfl, by decide⟩,
   (c5_send_missing_newsletter_no_change wTestEnv "https://app.example" wDb2 99).1
     ⟨rfl, by decide⟩⟩

/-- C6: in the 200 response the `testMode` flag is true exactly when
`EMAIL_USER` is not configured (JS truthiness), and when it is not configured
no `sendMail` call is ever made. -/
theorem c6_testmode_iff_no_credentials (env : SendEnv) (origin : String) (db : Db)
    (id : Nat) :
    (∀ m s t tm db' ms, postSend env origin db id = (SendRes.ok m s t tm, db', ms) →
        (tm = true ↔ envTruthy env.emailUser = false))
  ∧ (envTruthy env.emailUser = false → (postSend env origin db id).2.2 = []) := by
  constructor
  · intro m s t tm db' ms h
    have htm := (postSend_ok_shape h).2.1
    subst htm
    unfold testModeOf
    cases henv : envTruthy env.emailUser <;> simp
  · intro h
    have htm : testModeOf env = true := by simp [testModeOf, h]
    unfold postSend
    split
    · rfl
    · split
      · rfl
      · split
        · rfl
        · rw [htm]
          split
          · rfl
          · rename_i sc mails hL
            exact sendLoop_true_mails env _ origin _ _ _ _ _ hL

/-- Closed instance of C6: with `EMAIL_USER` unset the send over `wDb5`
performs no `sendMail` call. -/
theorem c6_testmode_iff_no_credentials_witness :
    envTruthy wTestEnv.emailUser = false
  ∧ (postSend wTestEnv "https://app.example" wDb5 1).2.2 = [] :=
  ⟨by decide,
   (c6_testmode_iff_no_credentials wTestEnv "https://app.example" wDb5 1).2 (by decide)⟩

/-- C7: `sent_count` is overwritten with the invocation's tally, not
incremented: after any successful send the newsletter row carries exactly that
send's `sent` value, and after two successive sends it carries the second
send's tally alone. -/
theorem c7_sent_count_overwritten (env1 env2 : SendEnv) (origin1 origin2 : String)
    (db : Db) (id : Nat) (m1 m2 : String) (s1 s2 t1 t2 : Nat) (tm1 tm2 : Bool)
    (db1 db2 : Db) (ms1 ms2 : List Mail)
    (h1 : postSend env1 origin1 db id = (SendRes.ok m1 s1 t1 tm1, db1, ms1))
    (h2 : postSend env2 origin2 db1 id = (SendRes.ok m2 s2 t2 tm2, db2, ms2)) :
    (∀ nl ∈ db1.newsletters, nl.id = id → nl.sent_count = s1)
  ∧ (∀ nl ∈ db2.newsletters, nl.id = id → nl.sent_count = s2) := by
  have e1 := (postSend_ok_shape h1).1
  have e2 := (postSend_ok_shape h2).1
  subst e1
  subst e2
  exact ⟨updateSentCount_sent db id s1, updateSentCount_sent _ id s2⟩

/-- Closed instance of C7: over `wDb2` a first live send tallies 2, a second
(one delivery failing) tallies 1, and the row ends at `sent_count = 1`, not
3. -/
theorem c7_sent_count_overwritten_witness :
    (∀ nl ∈ (updateSentCount wDb2 1 2).newsletters, nl.id = 1 → nl.sent_count = 2)
  ∧ (∀ nl ∈ (updateSentCount (updateSentCount wDb2 1 2) 1 1).newsletters,
        nl.id = 1 → nl.sent_count = 1) :=
  c7_sent_count_overwritten wLiveEnv wLiveEnvFail "https://app.example" "https://app.example"
    wDb2 1 (sendMessage false 2) (sendMessage false 1) 2 1 2 2 false false
    (updateSentCount wDb2 1 2) (updateSentCount (updateSentCount wDb2 1 2) 1 1)
    ((subscribedClients wDb2).map (mkMail wLiveEnv wNewsletter "https://app.example"))
    ((subscribedClients wDb2).map (mkMail wLiveEnvFail wNewsletter "https://app.example"))
    (by decide) (by decide)

/-- C9: the client-creation handler has no input validation: with the `email`
field missing the insert hits the NOT NULL constraint and the handler answers
500 with the raw database message (never a 400), creating no row and leaving
the database unchanged. -/
theorem c9_no_validation_null_email (db : Db) (n co : Option String) (t : Nat) :
    (postClients db none n co t).1 = CreateClientRes.serverError notNullMsg
  ∧ (postClients db none n co t).2 = db :=
  ⟨rfl, rfl⟩

/-- C2: in live mode (`EMAIL_USER` truthy) the send invokes `sendMail` once
for every subscribed client, in order; a per-recipient rejection is swallowed
(the response stays a 200 and the loop continues), `sent` counts exactly the
deliveries that did not reject, and `total` is the full subscriber count. -/
theorem c2_live_send_attempts_all (env : SendEnv) (origin : String) (db : Db) (id : Nat)
    (nlw : Newsletter)
    (hUser : envTruthy env.emailUser = true)
    (hNF : env.newsletterFetchErr = none)
    (hCF : env.clientsFetchErr = none)
    (hFind : db.newsletters.find? (fun n => n.id == id) = some nlw) :
    postSend env origin db id =
      (SendRes.ok (sendMessage false (countSucc env.deliver 0 (subscribedClients db).length))
         (countSucc env.deliver 0 (subscribedClients db).length)
         (subscribedClients db).length false,
       updateSentCount db id (countSucc env.deliver 0 (subscribedClients db).length),
       (subscribedClients db).map (mkMail env nlw origin)) := by
  have htm : testModeOf env = false := by simp [testModeOf, hUser]
  have hloop := sendLoop_live env nlw origin (subscribedClients db)
      (subscribedClients db).length 0 (by omega)
  simp only [List.drop_zero, List.take_length] at hloop
  have hmax : maxEmailsOf env (subscribedClients db) = (subscribedClients db).length := by
    simp [maxEmailsOf, htm]
  simp [postSend, hNF, hFind, hCF, htm, hmax, hloop]

/-- Closed instance of C2: over `wDb2` with the delivery at index 0 rejecting,
the send still answers 200 with `sent = 1, total = 2, testMode = false`, and
both subscribed clients received a `sendMail` attempt. -/
theorem c2_live_send_attempts_all_witness :
    envTruthy wLiveEnvFail.emailUser = true
  ∧ postSend wLiveEnvFail "https://app.example" wDb2 1 =
      (SendRes.ok (sendMessage false 1) 1 2 false,
       updateSentCount wDb2 1 1,
       (subscribedClients wDb2).map (mkMail wLiveEnvFail wNewsletter "https://app.example")) :=
  ⟨by decide, by
    have h := c2_live_send_attempts_all wLiveEnvFail "https://app.example" wDb2 1 wNewsletter
      (by decide) rfl rfl (by decide)
    exact h.trans (by decide)⟩

/-- C8: every HTML message built by a send embeds the newsletter content with
each newline character replaced by the `<br>` marker and every other character
kept as is. -/
theorem c8_newlines_rendered_as_br (env : SendEnv) (origin : String) (db : Db) (id : Nat)
    (nlw : Newsletter) {res : SendRes} {db' : Db} {ms : List Mail}
    (hFind : db.newsletters.find? (fun n => n.id == id) = some nlw)
    (hNl : '\n' ∈ nlw.content.data)
    (h : postSend env origin db id = (res, db', ms)) :
    ∀ m ∈ ms,
      (nlw.content.data.map (fun c => if c = '\n' then ['<', 'b', 'r', '>'] else [c])).flatten
        <:+: m.html.data := by
  intro m hm
  obtain ⟨c, rfl⟩ := postSend_mails_shape hFind h m hm
  rw [← replaceNl_eq_join]
  exact replaceNl_infix nlw.subject nlw.content origin c.email

/-- Closed instance of C8: the live send over `wDb2` produces messages whose
HTML contains `"prvi red<br>drugi red"` for the content
`"prvi red\ndrugi red"`. -/
theorem c8_newlines_rendered_as_br_witness :
    '\n' ∈ wNewsletter.content.data
  ∧ ∀ m ∈ (subscribedClients wDb2).map (mkMail wLiveEnv wNewsletter "https://app.example"),
      (wNewsletter.content.data.map
        (fun c => if c = '\n' then ['<', 'b', 'r', '>'] else [c])).flatten
        <:+: m.html.data :=
  ⟨by decide,
   c8_newlines_rendered_as_br wLiveEnv "https://app.example" wDb2 1 wNewsletter
     (by decide) (by decide)
     (show postSend wLiveEnv "https://app.example" wDb2 1 =
        (SendRes.ok (sendMessage false 2) 2 2 false, updateSentCount wDb2 1 2,
         (subscribedClients wDb2).map (mkMail wLiveEnv wNewsletter "https://app.example"))
      from by decide)⟩

/-- C3: client emails stay unique.  Creating a client with a fresh email
returns the created row; after that first creation, any further sequence of
creation attempts with the same email leaves exactly one row with that email;
a creation attempt against a state that already holds the email answers 409
and inserts nothing; and the uniqueness invariant is preserved by client
creation, by unsubscribe, and by the send operation. -/
theorem c3_email_uniqueness (db : Db) (e : String) (n co : Option String) (t : Nat)
    (h0 : countEmail db.clients e = 0) :
    (postClients db (some e) n co t).1
        = CreateClientRes.ok
            { id := db.nextClientId, email := e, name := n, company := co
              subscribed := true, created_at := t }
  ∧ (∀ ps, countEmail (createMany (postClients db (some e) n co t).2 e ps).clients e = 1)
  ∧ (∀ db1 : Db, countEmail db1.clients e = 1 → ∀ n2 co2 t2,
        (postClients db1 (some e) n2 co2 t2).1 = CreateClientRes.conflict
        ∧ (postClients db1 (some e) n2 co2 t2).2.clients = db1.clients)
  ∧ (∀ (db2 : Db) (em n2 co2 : Option String) (t2 : Nat), emailsUnique db2.clients →
        emailsUnique (postClients db2 em n2 co2 t2).2.clients)
  ∧ (∀ (db2 : Db) (e2 : String), emailsUnique db2.clients →
        emailsUnique (postUnsubscribe db2 e2).2.clients)
  ∧ (∀ (env : SendEnv) (origin : String) (db2 : Db) (id : Nat),
        emailsUnique db2.clients → emailsUnique (postSend env origin db2 id).2.1.clients) := by
  have h1 : countEmail (postClients db (some e) n co t).2.clients e = 1 := by
    rw [postClients_new h0]
    simp only [countEmail_append, h0]
    simp [countEmail]
  refine ⟨?_, ?_, ?_, ?_, ?_, ?_⟩
  · rw [postClients_new h0]
  · intro ps
    rw [createMany_clients_of_one ps _ h1]
    exact h1
  · intro db1 hc1 n2 co2 t2
    have hd := postClients_dup db1 e n2 co2 t2 (by omega)
    exact ⟨by rw [hd], by rw [hd]⟩
  · intro db2 em n2 co2 t2 hu
    cases em with
    | none => exact hu
    | some e2 =>
      by_cases ha : db2.clients.any (fun c => c.email == e2)
      · simp only [postClients, ha, if_true]
        exact hu
      · have hz := countEmail_eq_zero_iff.mp
          (any_email_false_iff.mp (Bool.not_eq_true _ ▸ ha))
        simp only [postClients, ha, Bool.false_eq_true, if_false]
        unfold emailsUnique at hu ⊢
        rw [List.pairwise_append]
        refine ⟨hu, by simp, ?_⟩
        intro a ha2 b hb
        have hb2 : b.email = e2 := by
          simp only [List.mem_singleton] at hb
          rw [hb]
        rw [hb2]
        exact hz a ha2
  · intro db2 e2 hu
    exact hu.map (unsubFn e2) (fun a b hab => by
      rw [unsubFn_email, unsubFn_email]
      exact hab)
  · intro env origin db2 id hu
    rw [show (postSend env origin db2 id).2.1.clients = db2.clients from
      (postSend_clients_const env origin db2 id).1]
    exact hu

/-- Closed instance of C3: inserting a fresh email into `wDb2` and then
repeating the attempt twice leaves exactly one row with that email. -/
theorem c3_email_uniqueness_witness :
    countEmail wDb2.clients "novi@x.hr" = 0
  ∧ countEmail (createMany (postClients wDb2 (some "novi@x.hr") none none 9).2 "novi@x.hr"
      [(none, none, 10), (none, none, 11)]).clients "novi@x.hr" = 1 :=
  ⟨by decide,
   (c3_email_uniqueness wDb2 "novi@x.hr" none none 9 (by decide)).2.1
     [(none, none, 10), (none, none, 11)]⟩

/-- C4: unsubscribe marks every row carrying the given email as unsubscribed,
always answers with the success message, is idempotent on the database state
(and on the response), and leaves the state untouched when no row carries the
email. -/
theorem c4_unsubscribe_idempotent (db : Db) (e : String) :
    (∀ c ∈ db.clients, c.email = e →
        { c with subscribed := false } ∈ (postUnsubscribe db e).2.clients)
  ∧ postUnsubscribe (postUnsubscribe db e).2 e = postUnsubscribe db e
  ∧ (postUnsubscribe db e).1 = "Pretplata uspješno otkazana"
  ∧ (countEmail db.clients e = 0 → (postUnsubscribe db e).2 = db) := by
  refine ⟨?_, ?_, rfl, ?_⟩
  · intro c hc hce
    have hfc : unsubFn e c = { c with subscribed := false } := by
      simp [unsubFn, hce]
    rw [← hfc]
    exact List.mem_map_of_mem _ hc
  · have hmm : (db.clients.map (unsubFn e)).map (unsubFn e)
        = db.clients.map (unsubFn e) :=
      map_self_of_fixed _ (fun c hc => by
        obtain ⟨a, ha, rfl⟩ := List.mem_map.mp hc
        exact unsubFn_idem e a)
    unfold postUnsubscribe
    rw [hmm]
  · intro h0
    have hz := countEmail_eq_zero_iff.mp h0
    have hmap : db.clients.map (unsubFn e) = db.clients :=
      map_self_of_fixed _ (fun c hc => by
        rw [unsubFn, if_neg (by simpa using hz c hc)])
    unfold postUnsubscribe
    rw [hmap]

/-- Closed instance of C4: unsubscribing `ana@example.com` from `wDb2` puts
her row at `subscribed = false`, and unsubscribing an unknown email leaves the
state exactly as it was. -/
theorem c4_unsubscribe_idempotent_witness :
    { wClient 1 "ana@example.com" with subscribed := false }
        ∈ (postUnsubscribe wDb2 "ana@example.com").2.clients
  ∧ (postUnsubscribe wDb2 "nitko@example.com").2 = wDb2 :=
  ⟨(c4_unsubscribe_idempotent wDb2 "ana@example.com").1 (wClient 1 "ana@example.com")
      (by decide) (by decide),
   (c4_unsubscribe_idempotent wDb2 "nitko@example.com").2.2.2 (by decide)⟩

/-- C10: unsubscribe touches nothing but the `subscribed` flag of rows whose
email matches: newsletters, the id sequences, the number of client rows and,
for every row position, the `id`, `email`, `name`, `company` and `created_at`
fields are unchanged; a row with a different email is unchanged entirely, and
a matching row ends with `subscribed = false`. -/
theorem c10_unsubscribe_frame (db : Db) (e : String) :
    (postUnsubscribe db e).2.newsletters = db.newsletters
  ∧ (postUnsubscribe db e).2.nextClientId = db.nextClientId
  ∧ (postUnsubscribe db e).2.nextNewsletterId = db.nextNewsletterId
  ∧ (postUnsubscribe db e).2.clients.length = db.clients.length
  ∧ (∀ (i : Nat) (h : i < db.clients.length)
        (h2 : i < (postUnsubscribe db e).2.clients.length),
      ((postUnsubscribe db e).2.clients[i].id = db.clients[i].id
        ∧ (postUnsubscribe db e).2.clients[i].email = db.clients[i].email
        ∧ (postUnsubscribe db e).2.clients[i].name = db.clients[i].name
        ∧ (postUnsubscribe db e).2.clients[i].company = db.clients[i].company
        ∧ (postUnsubscribe db e).2.clients[i].created_at = db.clients[i].created_at)
      ∧ (db.clients[i].email ≠ e → (postUnsubscribe db e).2.clients[i] = db.clients[i])
      ∧ (db.clients[i].email = e → (postUnsubscribe db e).2.clients[i].subscribed = false)) := by
  refine ⟨rfl, rfl, rfl, by simp [postUnsubscribe], ?_⟩
  intro i h h2
  have hg : (postUnsubscribe db e).2.clients[i] = unsubFn e db.clients[i] := by
    simp [postUnsubscribe]
  rw [hg]
  by_cases hc : db.clients[i].email == e
  · rw [unsubFn, if_pos hc]
    refine ⟨⟨rfl, rfl, rfl, rfl, rfl⟩, ?_, fun _ => rfl⟩
    intro hne
    exact absurd (by simpa using hc) hne
  · rw [unsubFn, if_neg hc]
    exact ⟨⟨rfl, rfl, rfl, rfl, rfl⟩, fun _ => rfl,
      fun heq => absurd (by simp [heq]) hc⟩

/-- Closed instance of C10: unsubscribing `ana@example.com` from `wDb2` keeps
the second row untouched and only flips the matching row's flag. -/
theorem c10_unsubscribe_frame_witness :
    (postUnsubscribe wDb2 "ana@example.com").2.newsletters = wDb2.newsletters
  ∧ (postUnsubscribe wDb2 "ana@example.com").2.clients[0].subscribed = false
  ∧ (postUnsubscribe wDb2 "ana@example.com").2.clients[1] = wDb2.clients[1] :=
  ⟨(c10_unsubscribe_frame wDb2 "ana@example.com").1,
   ((c10_unsubscribe_frame wDb2 "ana@example.com").2.2.2.2 0 (by decide)
      (by decide)).2.2 (by decide),
   ((c10_unsubscribe_frame wDb2 "ana@example.com").2.2.2.2 1 (by decide)
      (by decide)).2.1 (by decide)⟩

end NewsletterApp
